import Mathlib

/-!
Shallow embedding of the browser-automation extension (the Browser Automation
Session Manager): module-level session state (`browser`, `page`), the
`findChrome` locator, the lazy `getPage` acquisition, the tool `execute`
functions (navigate, screenshot, click, type, get_text, scroll, wait_for,
debug, close) and the `session_shutdown` handler.

Modelling conventions:
- The external driver (puppeteer) and the filesystem are an `Env` record of
  oracle functions; a failing driver call returns `Except.error msg` and is
  modelled as leaving the page state unchanged.
- A thrown JavaScript `Error(msg)` is `Except.error msg` propagating out of
  the function; there is no try/catch in any `execute`, so errors escape.
- Each `execute` returns the result (or the escaping error), the module state
  after the call, and the trace of driver round-trips it performed.
- The host passes a cancellation signal as the third `execute` argument; the
  source binds it as `_signal` (or omits the binder) and never uses it, so the
  model takes it as an unused `Bool` argument.
- JavaScript string lengths/slices are modelled with Lean character counts;
  the `onUpdate` progress side channel and the `_id` argument are not modelled.
-/

namespace BrowserChromium

/-- One typed payload item of a tool result: a text segment or a base64 image. -/
inductive ContentItem where
  | text (t : String)
  | image (data : String) (mimeType : String)
  deriving Repr, DecidableEq

/-- The result envelope returned by a tool execute: ordered content items plus
operation-specific `details` metadata. The source has no `isError` field; a
failure is a thrown error, not an envelope. -/
structure ToolResult (δ : Type) where
  content : List ContentItem
  details : δ
  deriving Repr

/-- Observable state of the single active page; stands in for the live DOM the
acquired browser owns. `selectors` are those that `p.$(sel)` resolves. -/
structure Page where
  url : String
  title : String
  selectors : List String
  elemText : String → String
  bodyText : String
  html : String
  scrollY : Int
  scrollHeight : Int

/-- The module-level mutable bindings of the extension:
`let browser: Browser | null` and `let page: Page | null`. The browser handle
is opaque; only whether it is held matters to the code. -/
structure ModuleState where
  browser : Option Unit
  page : Option Page

/-- Driver round-trips performed by the code, recorded as a trace so that
"no launch happened" and "no click was attempted" are statable. -/
inductive Event where
  | launch
  | newPage
  | setViewport
  | setUserAgent
  | query (selector : String)
  | goto (url : String) (waitUntil : String)
  | waitForNavigation
  | click (selector : String)
  | tripleClick (selector : String)
  | press (selector : String) (key : String)
  | typeText (selector : String) (text : String)
  | evalText
  | evalScroll (delta : Int)
  | scrollToBottom
  | scrollToTop
  | readScrollY
  | pageScreenshot (fullPage : Bool)
  | elementScreenshot (selector : String)
  | waitForSelector (selector : String) (timeout : Option Nat)
  | readTitle
  | readContent
  | closeBrowser
  deriving Repr, BEq, DecidableEq

/-- Behaviour of the external driver capability and of the filesystem; the code
under verification delegates all of these effects, so theorems quantify over
them. A call returning `Except.error` models a rejected promise. -/
structure Env where
  executable : String → Bool
  launch : Except String Unit
  newPage : Except String Page
  setViewport : Except String Unit
  setUserAgent : Except String Unit
  goto : String → String → Page → Except String Page
  waitAndClick : String → Page → Except String Page
  click : String → Page → Except String Page
  tripleClick : String → Page → Except String Page
  press : String → String → Page → Except String Page
  typeInto : String → String → Page → Except String Page
  elemShot : String → Page → Except String String
  pageShot : Bool → Page → Except String String
  waitFor : String → Option Nat → Page → Except String Unit
  closeBrowser : Except String Unit

/-- JavaScript truthiness of an optional boolean parameter
(`undefined` and `false` are falsy). -/
def jsTruthyBool : Option Bool → Bool
  | none => false
  | some b => b

/-- JavaScript truthiness of an optional string parameter
(`undefined` and the empty string are falsy). -/
def jsTruthyStr : Option String → Bool
  | none => false
  | some s => s != ""

/-- The JavaScript defaulting idiom `x || d` on an optional non-negative
number: `undefined` and `0` are falsy and fall back to the default. -/
def jsOrNat : Option Nat → Nat → Nat
  | none, d => d
  | some n, d => if n == 0 then d else n

/-- The fixed ordered list of candidate Chromium-family executables probed by
`findChrome`. -/
def chromePaths : List String :=
  ["/usr/bin/chromium-browser", "/usr/bin/chromium", "/usr/bin/google-chrome",
   "/usr/bin/google-chrome-stable", "/usr/bin/chrome"]

/-- The install-command remediation hint carried by the locator failure. -/
def installCmd : String := "sudo dnf install chromium"

/-- The for-loop of `findChrome`: `accessSync(p, X_OK)` on each path in order,
returning the first executable one; the catch clause continues the loop, and
the loop end throws the not-found error. -/
def findChromeLoop (ex : String → Bool) : List String → Except String String
  | [] => .error ("Chrome/Chromium not found. Install with: " ++ installCmd)
  | p :: rest => if ex p then .ok p else findChromeLoop ex rest

/-- `findChrome`: probe `chromePaths` in order. -/
def findChrome (ex : String → Bool) : Except String String :=
  findChromeLoop ex chromePaths

/-- `getPage`: if `browser` is null, locate a Chromium executable, launch the
browser, open a page and configure it (viewport, user agent), caching both
handles; otherwise return the cached `page!` without any acquisition. Each
assignment happens exactly where the source performs it, so a failure part way
through leaves exactly the partially assigned state behind. -/
def getPage (env : Env) (s : ModuleState) :
    Except String (Option Page) × ModuleState × List Event :=
  match s.browser with
  | some _ => (.ok s.page, s, [])
  | none =>
    match findChrome env.executable with
    | .error e => (.error e, s, [])
    | .ok _chromePath =>
      match env.launch with
      | .error e => (.error e, s, [.launch])
      | .ok () =>
        let s1 : ModuleState := { s with browser := some () }
        match env.newPage with
        | .error e => (.error e, s1, [.launch, .newPage])
        | .ok pg =>
          let s2 : ModuleState := { s1 with page := some pg }
          match env.setViewport with
          | .error e => (.error e, s2, [.launch, .newPage, .setViewport])
          | .ok () =>
            match env.setUserAgent with
            | .error e => (.error e, s2, [.launch, .newPage, .setViewport, .setUserAgent])
            | .ok () => (.ok (some pg), s2, [.launch, .newPage, .setViewport, .setUserAgent])

/-- Common prologue of every execute: `const p = await getPage()`. If the
cached `page` is null despite a held browser (possible after a part-way
acquisition failure), using it throws a TypeError at the first method call. -/
def withPage {α : Type} (env : Env) (s : ModuleState)
    (k : Page → ModuleState → Except String α × ModuleState × List Event) :
    Except String α × ModuleState × List Event :=
  match getPage env s with
  | (.error e, s1, ev) => (.error e, s1, ev)
  | (.ok none, s1, ev) => (.error "TypeError: page is null", s1, ev)
  | (.ok (some p), s1, ev) =>
    match k p s1 with
    | (r, s2, ev2) => (r, s2, ev ++ ev2)

/-- `details` of browser_navigate. -/
structure NavigateDetails where
  title : String
  url : String
  deriving Repr

/-- browser_navigate.execute: `p.goto(url, {waitUntil})`, then report the
resolved title and final URL. -/
def browser_navigate_execute (env : Env) (url : String) (waitForLoad : Option Bool)
    (_sig : Bool) (s : ModuleState) :
    Except String (ToolResult NavigateDetails) × ModuleState × List Event :=
  withPage env s fun p s1 =>
    let waitUntil := if jsTruthyBool waitForLoad then "networkidle0" else "domcontentloaded"
    match env.goto url waitUntil p with
    | .error e => (.error e, s1, [.goto url waitUntil])
    | .ok p1 =>
      (.ok { content := [.text ("✓ Loaded: " ++ p1.title), .text ("URL: " ++ p1.url)],
             details := { title := p1.title, url := p1.url } },
       { s1 with page := some p1 }, [.goto url waitUntil, .readTitle])

/-- `details` of browser_screenshot (echoes the raw optional parameters). -/
structure ScreenshotDetails where
  fullPage : Option Bool
  selector : Option String
  deriving Repr

/-- browser_screenshot.execute: with a (truthy) selector, probe `p.$(sel)`,
throw `Element not found` when absent, else capture the element; otherwise
capture the page (full or viewport). -/
def browser_screenshot_execute (env : Env) (fullPage : Option Bool)
    (selector : Option String) (_sig : Bool) (s : ModuleState) :
    Except String (ToolResult ScreenshotDetails) × ModuleState × List Event :=
  withPage env s fun p s1 =>
    if jsTruthyStr selector then
      let sel := selector.getD ""
      if p.selectors.contains sel then
        match env.elemShot sel p with
        | .error e => (.error e, s1, [.query sel, .elementScreenshot sel])
        | .ok data =>
          (.ok { content := [.text ("✓ Screenshot of element: " ++ sel),
                             .image data "image/png"],
                 details := { fullPage := fullPage, selector := selector } },
           s1, [.query sel, .elementScreenshot sel])
      else (.error ("Element not found: " ++ sel), s1, [.query sel])
    else
      match env.pageShot (jsTruthyBool fullPage) p with
      | .error e => (.error e, s1, [.pageScreenshot (jsTruthyBool fullPage)])
      | .ok data =>
        let caption := if jsTruthyBool fullPage then "Full page screenshot"
                       else "Viewport screenshot"
        (.ok { content := [.text ("✓ " ++ caption), .image data "image/png"],
               details := { fullPage := fullPage, selector := selector } },
         s1, [.pageScreenshot (jsTruthyBool fullPage)])

/-- `details` of browser_click. -/
structure ClickDetails where
  selector : String
  url : String
  deriving Repr

/-- browser_click.execute: probe `p.$(selector)` first, throw
`Element not found` when absent, else click (optionally racing a
`waitForNavigation`). -/
def browser_click_execute (env : Env) (selector : String) (waitForNavigation : Option Bool)
    (_sig : Bool) (s : ModuleState) :
    Except String (ToolResult ClickDetails) × ModuleState × List Event :=
  withPage env s fun p s1 =>
    if p.selectors.contains selector then
      if jsTruthyBool waitForNavigation then
        match env.waitAndClick selector p with
        | .error e => (.error e, s1, [.query selector, .waitForNavigation, .click selector])
        | .ok p1 =>
          (.ok { content := [.text ("✓ Clicked: " ++ selector),
                             .text ("Current URL: " ++ p1.url)],
                 details := { selector := selector, url := p1.url } },
           { s1 with page := some p1 },
           [.query selector, .waitForNavigation, .click selector])
      else
        match env.click selector p with
        | .error e => (.error e, s1, [.query selector, .click selector])
        | .ok p1 =>
          (.ok { content := [.text ("✓ Clicked: " ++ selector),
                             .text ("Current URL: " ++ p1.url)],
                 details := { selector := selector, url := p1.url } },
           { s1 with page := some p1 }, [.query selector, .click selector])
    else (.error ("Element not found: " ++ selector), s1, [.query selector])

/-- `details` of browser_type. -/
structure TypeDetails where
  selector : String
  textLength : Nat
  deriving Repr

/-- browser_type.execute: probe the selector, optionally clear the field
(triple click + Backspace), type the text, optionally press Enter; the echo in
the content truncates the typed text at 50 characters. -/
def browser_type_execute (env : Env) (selector text : String)
    (clearFirst pressEnter : Option Bool) (_sig : Bool) (s : ModuleState) :
    Except String (ToolResult TypeDetails) × ModuleState × List Event :=
  withPage env s fun p s1 =>
    if p.selectors.contains selector then
      let cleared : Except String Page × List Event :=
        if jsTruthyBool clearFirst then
          match env.tripleClick selector p with
          | .error e => (.error e, [.tripleClick selector])
          | .ok p1 =>
            match env.press selector "Backspace" p1 with
            | .error e => (.error e, [.tripleClick selector, .press selector "Backspace"])
            | .ok p2 => (.ok p2, [.tripleClick selector, .press selector "Backspace"])
        else (.ok p, [])
      match cleared with
      | (.error e, ev) => (.error e, s1, [.query selector] ++ ev)
      | (.ok p2, ev) =>
        match env.typeInto selector text p2 with
        | .error e =>
          (.error e, { s1 with page := some p2 },
           [.query selector] ++ ev ++ [.typeText selector text])
        | .ok p3 =>
          let entered : Except String Page × List Event :=
            if jsTruthyBool pressEnter then
              match env.press selector "Enter" p3 with
              | .error e => (.error e, [.press selector "Enter"])
              | .ok p4 => (.ok p4, [.press selector "Enter"])
            else (.ok p3, [])
          match entered with
          | (.error e, ev2) =>
            (.error e, { s1 with page := some p3 },
             [.query selector] ++ ev ++ [.typeText selector text] ++ ev2)
          | (.ok p4, ev2) =>
            (.ok { content := [.text ("✓ Typed into: " ++ selector),
                   .text ("Text: " ++ text.take 50 ++
                          (if text.length > 50 then "..." else ""))],
                   details := { selector := selector, textLength := text.length } },
             { s1 with page := some p4 },
             [.query selector] ++ ev ++ [.typeText selector text] ++ ev2)
    else (.error ("Element not found: " ++ selector), s1, [.query selector])

/-- `details` of browser_get_text. -/
structure GetTextDetails where
  length : Nat
  truncated : Bool
  url : String
  deriving Repr, DecidableEq

/-- browser_get_text.execute: extract the element text (probing the selector
first) or the whole document body text, then apply the
`maxLength || 10000` cap with the `\n...[truncated]` marker. -/
def browser_get_text_execute (env : Env) (selector : Option String)
    (maxLength : Option Nat) (_sig : Bool) (s : ModuleState) :
    Except String (ToolResult GetTextDetails) × ModuleState × List Event :=
  withPage env s fun p s1 =>
    let textRes : Except String String × List Event :=
      if jsTruthyStr selector then
        let sel := selector.getD ""
        if p.selectors.contains sel then (.ok (p.elemText sel), [.query sel, .evalText])
        else (.error ("Element not found: " ++ sel), [.query sel])
      else (.ok p.bodyText, [.evalText])
    match textRes with
    | (.error e, ev) => (.error e, s1, ev)
    | (.ok text, ev) =>
      let maxLen := jsOrNat maxLength 10000
      let out := if text.length > maxLen then text.take maxLen ++ "\n...[truncated]"
                 else text
      (.ok { content := [.text out],
             details := { length := text.length,
                          truncated := decide (text.length > maxLen),
                          url := p.url } },
       s1, ev)

/-- `details` of browser_scroll. -/
structure ScrollDetails where
  direction : String
  scrollPosition : Int
  deriving Repr

/-- browser_scroll.execute: `amount || 800`, then `scrollBy`/`scrollTo`
according to the direction (an unrecognized direction falls through the switch
doing nothing), then read back `window.scrollY`. The browser clamping of the
scroll offset to the scrollable range is abstracted: the model applies the
requested update directly. -/
def browser_scroll_execute (env : Env) (direction : String) (amount : Option Nat)
    (_sig : Bool) (s : ModuleState) :
    Except String (ToolResult ScrollDetails) × ModuleState × List Event :=
  withPage env s fun p s1 =>
    let amt : Int := (jsOrNat amount 800 : Nat)
    let p1 := match direction with
      | "down" => { p with scrollY := p.scrollY + amt }
      | "up" => { p with scrollY := p.scrollY - amt }
      | "bottom" => { p with scrollY := p.scrollHeight }
      | "top" => { p with scrollY := 0 }
      | _ => p
    let ev : List Event := match direction with
      | "down" => [.evalScroll amt]
      | "up" => [.evalScroll (-amt)]
      | "bottom" => [.scrollToBottom]
      | "top" => [.scrollToTop]
      | _ => []
    (.ok { content := [.text ("✓ Scrolled " ++ direction ++ " (position: " ++
                              toString p1.scrollY ++ "px)")],
           details := { direction := direction, scrollPosition := p1.scrollY } },
     { s1 with page := some p1 }, ev ++ [.readScrollY])

/-- `details` of browser_wait_for. -/
structure WaitForDetails where
  selector : String
  deriving Repr

/-- browser_wait_for.execute: `p.waitForSelector(selector, {timeout})`; the raw
optional timeout is forwarded to the driver unchanged. -/
def browser_wait_for_execute (env : Env) (selector : String) (timeout : Option Nat)
    (_sig : Bool) (s : ModuleState) :
    Except String (ToolResult WaitForDetails) × ModuleState × List Event :=
  withPage env s fun p s1 =>
    match env.waitFor selector timeout p with
    | .error e => (.error e, s1, [.waitForSelector selector timeout])
    | .ok () =>
      (.ok { content := [.text ("✓ Element appeared: " ++ selector)],
             details := { selector := selector } },
       s1, [.waitForSelector selector timeout])

/-- `details` of browser_debug. -/
structure DebugDetails where
  title : String
  url : String
  deriving Repr

/-- browser_debug.execute: full page screenshot, title, URL, and (when
`includeHtml` is truthy) an HTML preview truncated at 3000 characters. -/
def browser_debug_execute (env : Env) (includeHtml : Option Bool)
    (_sig : Bool) (s : ModuleState) :
    Except String (ToolResult DebugDetails) × ModuleState × List Event :=
  withPage env s fun p s1 =>
    match env.pageShot true p with
    | .error e => (.error e, s1, [.pageScreenshot true])
    | .ok data =>
      let base : List ContentItem :=
        [.text "Debug Info:", .text ("Title: " ++ p.title), .text ("URL: " ++ p.url),
         .image data "image/png"]
      let content := if jsTruthyBool includeHtml then
          base ++ [.text ("HTML preview:\n" ++ p.html.take 3000 ++
            (if p.html.length > 3000 then "\n...[truncated]" else ""))]
        else base
      let ev : List Event := [.pageScreenshot true, .readTitle] ++
        (if jsTruthyBool includeHtml then [.readContent] else [])
      (.ok { content := content, details := { title := p.title, url := p.url } }, s1, ev)

/-- The success envelope of browser_close. -/
def closeEnvelope : ToolResult Unit := { content := [.text "✓ Browser closed"], details := () }

/-- browser_close.execute: if a browser is held, `await browser.close()` (no
catch: a rejection escapes before the handles are cleared), then null both
handles; with no browser held it is a no-op success. -/
def browser_close_execute (env : Env) (s : ModuleState) :
    Except String (ToolResult Unit) × ModuleState × List Event :=
  match s.browser with
  | some _ =>
    match env.closeBrowser with
    | .error e => (.error e, s, [.closeBrowser])
    | .ok () => (.ok closeEnvelope, { browser := none, page := none }, [.closeBrowser])
  | none => (.ok closeEnvelope, s, [])

/-- The session_shutdown handler: `browser.close().now-swallowed` (the catch
discards any failure), then null both handles; never raises. -/
def session_shutdown (env : Env) (s : ModuleState) : ModuleState × List Event :=
  match s.browser with
  | some _ =>
    match env.closeBrowser with
    | _ => ({ browser := none, page := none }, [.closeBrowser])
  | none => (s, [])

/-- Iterate `getPage` a number of times, accumulating the driver trace:
the acquisition-count instrumentation of the spec. -/
def getPageIter (env : Env) : Nat → ModuleState → ModuleState × List Event
  | 0, s => (s, [])
  | n + 1, s =>
    match getPage env s with
    | (_, s1, ev) =>
      match getPageIter env n s1 with
      | (s2, ev2) => (s2, ev ++ ev2)

/-- A blank concrete page for concrete evaluations. -/
def blankPage : Page :=
  { url := "about:blank", title := "blank", selectors := [],
    elemText := fun _ => "", bodyText := "", html := "<html></html>",
    scrollY := 0, scrollHeight := 0 }

/-- A concrete driver environment in which every call succeeds
deterministically. -/
def okEnv : Env :=
  { executable := fun _ => true
    launch := .ok ()
    newPage := .ok blankPage
    setViewport := .ok ()
    setUserAgent := .ok ()
    goto := fun url _ p => .ok { p with url := url, title := "Example" }
    waitAndClick := fun _ p => .ok p
    click := fun _ p => .ok p
    tripleClick := fun _ p => .ok p
    press := fun _ _ p => .ok p
    typeInto := fun _ _ p => .ok p
    elemShot := fun _ _ => .ok "IMGDATA"
    pageShot := fun _ _ => .ok "IMGDATA"
    waitFor := fun _ _ _ => .ok ()
    closeBrowser := .ok () }

/-- A concrete page whose body text is the five characters `hello`. -/
def helloPage : Page := { blankPage with bodyText := "hello" }

/-- A ready module state holding the given page. -/
def readyState (p : Page) : ModuleState := { browser := some (), page := some p }

end BrowserChromium

namespace BrowserChromium

theorem findChromeLoop_eq_find (ex : String → Bool) (l : List String) :
    findChromeLoop ex l = match l.find? ex with
      | some p => .ok p
      | none => .error ("Chrome/Chromium not found. Install with: " ++ installCmd) := by
  induction l with
  | nil => rfl
  | cons p rest ih =>
    by_cases h : ex p <;> simp [findChromeLoop, List.find?_cons, h, ih]

/-- C7: the Target Locator probes the fixed ordered path list and returns the
first path the filesystem reports executable; when none is, it fails with the
not-found error whose message carries the `sudo dnf install chromium`
remediation hint. -/
theorem c7_findChrome_first_executable (ex : String → Bool) :
    findChrome ex = match chromePaths.find? ex with
      | some p => .ok p
      | none => .error ("Chrome/Chromium not found. Install with: " ++ installCmd) :=
  findChromeLoop_eq_find ex chromePaths

/-- C10: a `maxLength` of 0 is falsy under the `|| 10000` defaulting, so
get_text behaves exactly as with the parameter omitted (and as with 10000);
likewise a scroll `amount` of 0 behaves as the default 800. -/
theorem c10_zero_uses_default (env : Env) (sel : Option String) (dir : String)
    (sig : Bool) (s : ModuleState) :
    browser_get_text_execute env sel (some 0) sig s =
      browser_get_text_execute env sel none sig s ∧
    browser_get_text_execute env sel (some 0) sig s =
      browser_get_text_execute env sel (some 10000) sig s ∧
    browser_scroll_execute env dir (some 0) sig s =
      browser_scroll_execute env dir none sig s ∧
    browser_scroll_execute env dir (some 0) sig s =
      browser_scroll_execute env dir (some 800) sig s :=
  ⟨rfl, rfl, rfl, rfl⟩

/-- C4 counterexample: the cancellation signal is raised (`true`) while
navigate runs, yet the action completes successfully instead of failing with a
Cancelled error — the signal argument is never consulted. -/
theorem c4_counterexample :
    (browser_navigate_execute okEnv "https://example.com" none true
        (readyState blankPage)).1 =
      .ok { content := [.text "✓ Loaded: Example", .text "URL: https://example.com"],
            details := { title := "Example", url := "https://example.com" } } := rfl

/-- C4 amended: every action's execute receives the external cancellation
signal but ignores it — the outcome of each of the eight operations is
identical for any two signal values, so no abort-with-Cancelled behaviour
exists. -/
theorem c4_signal_ignored (env : Env) (s : ModuleState) (url txt sel dir : String)
    (wfl wnav cf pe ih fp : Option Bool) (osel : Option String) (m tmo : Option Nat)
    (sig sig2 : Bool) :
    browser_navigate_execute env url wfl sig s =
      browser_navigate_execute env url wfl sig2 s ∧
    browser_screenshot_execute env fp osel sig s =
      browser_screenshot_execute env fp osel sig2 s ∧
    browser_click_execute env sel wnav sig s =
      browser_click_execute env sel wnav sig2 s ∧
    browser_type_execute env sel txt cf pe sig s =
      browser_type_execute env sel txt cf pe sig2 s ∧
    browser_get_text_execute env osel m sig s =
      browser_get_text_execute env osel m sig2 s ∧
    browser_scroll_execute env dir m sig s =
      browser_scroll_execute env dir m sig2 s ∧
    browser_wait_for_execute env sel tmo sig s =
      browser_wait_for_execute env sel tmo sig2 s ∧
    browser_debug_execute env ih sig s =
      browser_debug_execute env ih sig2 s :=
  ⟨rfl, rfl, rfl, rfl, rfl, rfl, rfl, rfl⟩

/-- C1 counterexample: click on a selector absent from the page — a failure
that is not an acquisition failure — makes the call raise the low-level error
out of the execute function instead of returning an isError result envelope. -/
theorem c1_counterexample :
    (browser_click_execute okEnv "#submit" none false (readyState blankPage)).1 =
      .error "Element not found: #submit" := rfl

/-- C1 amended: action-level failures are raised (thrown) out of the execute
functions as errors carrying a human-readable message — there is no
catch-and-normalize envelope layer in this component; in particular click,
screenshot-by-selector, type and get_text-by-selector on an absent selector
all raise `Element not found: <selector>`. -/
theorem c1_failures_raise (env : Env) (s : ModuleState) (p : Page) (sel txt : String)
    (w cf pe f : Option Bool) (m : Option Nat) (sig : Bool)
    (hb : s.browser = some ()) (hp : s.page = some p)
    (hsel : p.selectors.contains sel = false) (hne : sel ≠ "") :
    (browser_click_execute env sel w sig s).1 =
      .error ("Element not found: " ++ sel) ∧
    (browser_screenshot_execute env f (some sel) sig s).1 =
      .error ("Element not found: " ++ sel) ∧
    (browser_type_execute env sel txt cf pe sig s).1 =
      .error ("Element not found: " ++ sel) ∧
    (browser_get_text_execute env (some sel) m sig s).1 =
      .error ("Element not found: " ++ sel) := by
  have hgp : getPage env s = (.ok s.page, s, []) := by simp [getPage, hb]
  have hmem : sel ∉ p.selectors := by simpa using hsel
  refine ⟨?_, ?_, ?_, ?_⟩ <;>
    simp [browser_click_execute, browser_screenshot_execute, browser_type_execute,
          browser_get_text_execute, withPage, hgp, hp, hmem, jsTruthyStr, hne]

/-- Witness for C1 amended at a concrete blank page and selector. -/
theorem c1_failures_raise_witness :
    (browser_click_execute okEnv "#x" none false (readyState blankPage)).1 =
      .error ("Element not found: " ++ "#x") ∧
    (browser_screenshot_execute okEnv none (some "#x") false (readyState blankPage)).1 =
      .error ("Element not found: " ++ "#x") ∧
    (browser_type_execute okEnv "#x" "t" none none false (readyState blankPage)).1 =
      .error ("Element not found: " ++ "#x") ∧
    (browser_get_text_execute okEnv (some "#x") none false (readyState blankPage)).1 =
      .error ("Element not found: " ++ "#x") :=
  c1_failures_raise okEnv (readyState blankPage) blankPage "#x" "t"
    none none none none none false rfl rfl rfl (by decide)

/-- C2 counterexample: locating and launching succeed but opening the page
fails; afterwards the browser handle is still held (non-null) and no release
was performed — the session did not revert to Uninitialized. -/
theorem c2_counterexample :
    getPage { okEnv with newPage := .error "newPage failed" }
        { browser := none, page := none } =
      (.error "newPage failed", { browser := some (), page := none },
       [.launch, .newPage]) := rfl

/-- C2 amended: a failure while locating or launching the browser leaves the
state Uninitialized with nothing acquired (retry possible), but a failure
after the launch succeeded (opening or configuring the page) leaves the
launched browser handle set and performs no release. -/
theorem c2_acquisition_failure_states (env : Env) (s : ModuleState) (e : String)
    (hb : s.browser = none) :
    (findChrome env.executable = .error e → getPage env s = (.error e, s, [])) ∧
    (∀ pth, findChrome env.executable = .ok pth → env.launch = .error e →
      getPage env s = (.error e, s, [.launch])) ∧
    (∀ pth, findChrome env.executable = .ok pth → env.launch = .ok () →
      env.newPage = .error e →
      getPage env s = (.error e, { s with browser := some () }, [.launch, .newPage])) ∧
    (∀ pth pg, findChrome env.executable = .ok pth → env.launch = .ok () →
      env.newPage = .ok pg → env.setViewport = .error e →
      getPage env s = (.error e, { s with browser := some (), page := some pg },
                       [.launch, .newPage, .setViewport])) ∧
    (∀ pth pg, findChrome env.executable = .ok pth → env.launch = .ok () →
      env.newPage = .ok pg → env.setViewport = .ok () → env.setUserAgent = .error e →
      getPage env s = (.error e, { s with browser := some (), page := some pg },
                       [.launch, .newPage, .setViewport, .setUserAgent])) := by
  refine ⟨?_, ?_, ?_, ?_, ?_⟩ <;> intros <;> simp_all [getPage]

/-- Witness for C2 amended: the page-opening failure case at a concrete
environment. -/
theorem c2_acquisition_failure_states_witness :
    getPage { okEnv with newPage := .error "boom" } { browser := none, page := none } =
      (.error "boom", { browser := some (), page := none }, [.launch, .newPage]) :=
  (c2_acquisition_failure_states { okEnv with newPage := .error "boom" }
      { browser := none, page := none } "boom" rfl).2.2.1
    "/usr/bin/chromium-browser" rfl rfl rfl

end BrowserChromium

namespace BrowserChromium

theorem getPageIter_ready (env : Env) (n : Nat) (s : ModuleState)
    (h : s.browser = some ()) : getPageIter env n s = (s, []) := by
  induction n with
  | zero => rfl
  | succ n ih => simp [getPageIter, getPage, h, ih]

/-- C3: `getPage` is idempotent — whenever the browser handle is held it
performs no driver call at all (no launch, no page creation) and returns the
cached page with the state unchanged; over any number of consecutive calls
starting from Uninitialized with a working driver, exactly one launch and one
page creation occur. -/
theorem c3_getPage_idempotent :
    (∀ env s, s.browser = some () → getPage env s = (.ok s.page, s, [])) ∧
    (∀ env pg pth n, findChrome env.executable = .ok pth → env.launch = .ok () →
      env.newPage = .ok pg → env.setViewport = .ok () → env.setUserAgent = .ok () →
      ((getPageIter env (n + 1) { browser := none, page := none }).2).count .launch = 1 ∧
      ((getPageIter env (n + 1) { browser := none, page := none }).2).count .newPage = 1) := by
  constructor
  · intro env s h
    simp [getPage, h]
  · intro env pg pth n hfc hl hnp hsv hsua
    have h1 : getPage env { browser := none, page := none } =
        (.ok (some pg), { browser := some (), page := some pg },
         [.launch, .newPage, .setViewport, .setUserAgent]) := by
      simp [getPage, hfc, hl, hnp, hsv, hsua]
    have h2 := getPageIter_ready env n { browser := some (), page := some pg } rfl
    simp [getPageIter, h1, h2, List.count_cons]
    decide

/-- Witness for C3 at a concrete environment: a ready state is returned
untouched, and two consecutive calls from scratch launch exactly once. -/
theorem c3_getPage_idempotent_witness :
    getPage okEnv (readyState blankPage) =
      (.ok (some blankPage), readyState blankPage, []) ∧
    ((getPageIter okEnv 2 { browser := none, page := none }).2).count .launch = 1 := by
  constructor
  · exact c3_getPage_idempotent.1 okEnv (readyState blankPage) rfl
  · exact (c3_getPage_idempotent.2 okEnv blankPage "/usr/bin/chromium-browser" 1
      rfl rfl rfl rfl rfl).1

/-- C5 counterexample: body text of length 5 with `maxLength = 0` (so the
extracted length exceeds the parameter) is returned unmodified with
`truncated = false`, because the 0 falls back to the default cap of 10000
instead of truncating to 0 characters plus a marker. -/
theorem c5_counterexample :
    (browser_get_text_execute okEnv none (some 0) false (readyState helloPage)).1 =
      .ok { content := [.text "hello"],
            details := { length := 5, truncated := false, url := "about:blank" } } := rfl

/-- C5 amended: for every positive `maxLength` m, get_text cuts text longer
than m to its first m characters plus the truncation marker and reports the
untruncated length with `truncated = true`; text of length at most m is
returned unmodified with `truncated = false` — both for the whole document and
for a present selector. -/
theorem c5_get_text_truncation (env : Env) (s : ModuleState) (p : Page) (m : Nat)
    (sig : Bool) (hb : s.browser = some ()) (hp : s.page = some p) (hm : 1 ≤ m) :
    (p.bodyText.length > m →
      (browser_get_text_execute env none (some m) sig s).1 =
        .ok { content := [.text (p.bodyText.take m ++ "\n...[truncated]")],
              details := { length := p.bodyText.length, truncated := true,
                           url := p.url } }) ∧
    (p.bodyText.length ≤ m →
      (browser_get_text_execute env none (some m) sig s).1 =
        .ok { content := [.text p.bodyText],
              details := { length := p.bodyText.length, truncated := false,
                           url := p.url } }) ∧
    (∀ sel, sel ≠ "" → sel ∈ p.selectors →
      ((p.elemText sel).length > m →
        (browser_get_text_execute env (some sel) (some m) sig s).1 =
          .ok { content := [.text ((p.elemText sel).take m ++ "\n...[truncated]")],
                details := { length := (p.elemText sel).length, truncated := true,
                             url := p.url } }) ∧
      ((p.elemText sel).length ≤ m →
        (browser_get_text_execute env (some sel) (some m) sig s).1 =
          .ok { content := [.text (p.elemText sel)],
                details := { length := (p.elemText sel).length, truncated := false,
                             url := p.url } })) := by
  have hgp : getPage env s = (.ok s.page, s, []) := by simp [getPage, hb]
  have hm0 : (m == 0) = false := by rw [beq_eq_false_iff_ne]; omega
  refine ⟨?_, ?_, ?_⟩
  · intro h
    simp [browser_get_text_execute, withPage, hgp, hp, jsTruthyStr, jsOrNat, hm0, h]
  · intro h
    have h2 : ¬ (p.bodyText.length > m) := by omega
    simp [browser_get_text_execute, withPage, hgp, hp, jsTruthyStr, jsOrNat, hm0, h2]
  · intro sel hne hmem
    constructor
    · intro h
      simp [browser_get_text_execute, withPage, hgp, hp, jsTruthyStr, jsOrNat, hm0,
            hne, hmem, h]
    · intro h
      have h2 : ¬ ((p.elemText sel).length > m) := by omega
      simp [browser_get_text_execute, withPage, hgp, hp, jsTruthyStr, jsOrNat, hm0,
            hne, hmem, h2]

/-- Witness for C5 amended: a 5-character document with cap 3 yields the first
3 characters, the marker, the original length and the truncated flag. -/
theorem c5_get_text_truncation_witness :
    (browser_get_text_execute okEnv none (some 3) false (readyState helloPage)).1 =
      .ok { content := [.text ("hel" ++ "\n...[truncated]")],
            details := { length := 5, truncated := true, url := "about:blank" } } := by
  exact (c5_get_text_truncation okEnv (readyState helloPage) helloPage 3 false
    rfl rfl (by decide)).1 (by decide)

/-- C6: click on a selector absent from the page raises `ElementNotFound`
(`Element not found: <selector>`) with the module and page state unchanged and
a driver trace containing only the existence probe — no click is attempted;
moreover the trace of any click call starts with the probe, so the probe
always precedes the interaction. -/
theorem c6_click_element_not_found (env : Env) (s : ModuleState) (p : Page)
    (sel : String) (w : Option Bool) (sig : Bool)
    (hb : s.browser = some ()) (hp : s.page = some p) :
    (sel ∉ p.selectors →
      browser_click_execute env sel w sig s =
        (.error ("Element not found: " ++ sel), s, [.query sel])) ∧
    (∃ tl, (browser_click_execute env sel w sig s).2.2 = Event.query sel :: tl) := by
  have hgp : getPage env s = (.ok s.page, s, []) := by simp [getPage, hb]
  constructor
  · intro hsel
    simp [browser_click_execute, withPage, hgp, hp, hsel]
  · by_cases hsel : sel ∈ p.selectors
    · by_cases hw : jsTruthyBool w = true
      · cases hres : env.waitAndClick sel p with
        | error e =>
          exact ⟨[.waitForNavigation, .click sel],
            by simp [browser_click_execute, withPage, hgp, hp, hsel, hw, hres]⟩
        | ok p1 =>
          exact ⟨[.waitForNavigation, .click sel],
            by simp [browser_click_execute, withPage, hgp, hp, hsel, hw, hres]⟩
      · cases hres : env.click sel p with
        | error e =>
          exact ⟨[.click sel],
            by simp [browser_click_execute, withPage, hgp, hp, hsel, hw, hres]⟩
        | ok p1 =>
          exact ⟨[.click sel],
            by simp [browser_click_execute, withPage, hgp, hp, hsel, hw, hres]⟩
    · exact ⟨[], by simp [browser_click_execute, withPage, hgp, hp, hsel]⟩

/-- Witness for C6 at a concrete blank page and absent selector. -/
theorem c6_click_element_not_found_witness :
    browser_click_execute okEnv "#nav" none false (readyState blankPage) =
      (.error ("Element not found: " ++ "#nav"), readyState blankPage,
       [.query "#nav"]) ∧
    (∃ tl, (browser_click_execute okEnv "#nav" none false
        (readyState blankPage)).2.2 = Event.query "#nav" :: tl) := by
  have h := c6_click_element_not_found okEnv (readyState blankPage) blankPage
    "#nav" none false rfl rfl
  exact ⟨h.1 (by decide), h.2⟩

/-- C8 counterexample: close while a browser is held, with the underlying
release failing — the failure propagates out of close and the handles are not
cleared, instead of being swallowed with a success report. -/
theorem c8_counterexample :
    browser_close_execute { okEnv with closeBrowser := .error "EPIPE" }
        (readyState blankPage) =
      (.error "EPIPE", readyState blankPage, [.closeBrowser]) := rfl

/-- C8 amended: a failure of the underlying browser release is propagated by
the explicit close operation, which leaves both handles untouched; only the
session_shutdown handler swallows the release failure and clears both
handles. -/
theorem c8_close_propagates_release_failure (env : Env) (s : ModuleState) (e : String)
    (hb : s.browser = some ()) (hc : env.closeBrowser = .error e) :
    browser_close_execute env s = (.error e, s, [.closeBrowser]) ∧
    session_shutdown env s = ({ browser := none, page := none }, [.closeBrowser]) := by
  constructor
  · simp [browser_close_execute, hb, hc]
  · simp [session_shutdown, hb, hc]

/-- Witness for C8 amended at a concrete failing release. -/
theorem c8_close_propagates_release_failure_witness :
    browser_close_execute { okEnv with closeBrowser := .error "boom2" }
        (readyState blankPage) =
      (.error "boom2", readyState blankPage, [.closeBrowser]) ∧
    session_shutdown { okEnv with closeBrowser := .error "boom2" }
        (readyState blankPage) =
      ({ browser := none, page := none }, [.closeBrowser]) :=
  c8_close_propagates_release_failure { okEnv with closeBrowser := .error "boom2" }
    (readyState blankPage) "boom2" rfl rfl

/-- C9: when the underlying release succeeds, close succeeds from any
reachable state leaving both handles null, and a second close on the resulting
never-opened state succeeds again with both handles still null — close is
idempotent. -/
theorem c9_close_idempotent (env : Env) (s : ModuleState)
    (hc : env.closeBrowser = .ok ()) (hinv : s.browser = none → s.page = none) :
    (∃ ev, browser_close_execute env s =
      (.ok closeEnvelope, { browser := none, page := none }, ev)) ∧
    browser_close_execute env { browser := none, page := none } =
      (.ok closeEnvelope, { browser := none, page := none }, []) := by
  constructor
  · obtain ⟨b, pg⟩ := s
    cases b with
    | some u =>
      exact ⟨[.closeBrowser], by simp [browser_close_execute, hc]⟩
    | none =>
      have hpg : pg = none := hinv rfl
      subst hpg
      exact ⟨[], by simp [browser_close_execute]⟩
  · simp [browser_close_execute]

/-- Witness for C9: closing an open session, then closing again. -/
theorem c9_close_idempotent_witness :
    (∃ ev, browser_close_execute okEnv (readyState blankPage) =
      (.ok closeEnvelope, { browser := none, page := none }, ev)) ∧
    browser_close_execute okEnv { browser := none, page := none } =
      (.ok closeEnvelope, { browser := none, page := none }, []) :=
  c9_close_idempotent okEnv (readyState blankPage) rfl
    (fun h => Option.noConfusion h)

end BrowserChromium
